import Mathlib

/-!
Shallow embedding of the MCP gateway (`src/mcp_platform/server.py`) and the
shared sample dataset (`src/customer_api/data.py`).

Modelling conventions:
* JSON values are the inductive `Json`; `json.loads` results are passed in
  already decoded (`Option Json`, `none` when decoding raises).
* Python `dict.get(k, default)` on a non-dict raises `AttributeError`; the
  model `Json.pyGet` returns `none` in that case, and an uncaught exception
  anywhere in a handler surfaces as `response = none` (no bytes sent).
* Decimal amounts are embedded as integer cents (512.43 becomes 51243).
* Timestamps (`time.strftime`) are passed in as an opaque `now : String`.
* The network is a parameter `WireResult`: either a received HTTP response
  (with its status and decoded body — `urllib` raises `HTTPError` exactly
  for statuses >= 400) or a transport failure (`URLError`) with a reason.
-/

/-- JSON values as produced by `json.loads`. Object field lists model the
decoded Python dict (keys unique). -/
inductive Json where
  | null : Json
  | bool : Bool → Json
  | num : Int → Json
  | str : String → Json
  | arr : List Json → Json
  | obj : List (String × Json) → Json

/-- First-match lookup in a decoded object's field list (dict indexing). -/
def lookupField : List (String × Json) → String → Option Json
  | [], _ => none
  | (k, v) :: rest, key => if k = key then some v else lookupField rest key

/-- Python `payload.get(key, default)`: `none` models the `AttributeError`
raised when `payload` is not a dict; otherwise the value or the default. -/
def Json.pyGet (j : Json) (key : String) (default : Json) : Option Json :=
  match j with
  | .obj fields => some ((lookupField fields key).getD default)
  | _ => none

/-- Python `payload.get(key)` (default `None`): outer `none` models the
`AttributeError` on a non-dict, inner option is key presence. -/
def Json.pyGetOpt (j : Json) (key : String) : Option (Option Json) :=
  match j with
  | .obj fields => some (lookupField fields key)
  | _ => none

/-- Pure field projection used only in theorem statements. -/
def Json.field (j : Json) (key : String) : Option Json :=
  match j with
  | .obj fields => lookupField fields key
  | _ => none

/-- One line item of an order (`unit_price` embedded as cents). -/
structure OrderItem where
  sku : String
  quantity : Nat
  unit_price_cents : Nat
deriving DecidableEq

/-- An order record of the sample dataset (`total` embedded as cents). -/
structure Order where
  order_id : String
  status : String
  total_cents : Nat
  currency : String
  items : List OrderItem
deriving DecidableEq

/-- Model of `_SAMPLE_ORDERS` from `src/customer_api/data.py`. -/
def SAMPLE_ORDERS : List Order :=
  [ { order_id := "A1001", status := "processing", total_cents := 51243,
      currency := "CNY",
      items := [ { sku := "SKU-1", quantity := 2, unit_price_cents := 19900 },
                 { sku := "SKU-5", quantity := 1, unit_price_cents := 11443 } ] },
    { order_id := "A1002", status := "shipped", total_cents := 7999,
      currency := "CNY",
      items := [ { sku := "SKU-8", quantity := 4, unit_price_cents := 1999 } ] },
    { order_id := "A1003", status := "ready_for_pickup", total_cents := 149900,
      currency := "CNY",
      items := [ { sku := "SKU-9", quantity := 1, unit_price_cents := 149900 } ] } ]

/-- JSON encoding of a line item. -/
def OrderItem.toJson (it : OrderItem) : Json :=
  .obj [("sku", .str it.sku), ("quantity", .num it.quantity),
        ("unit_price", .num it.unit_price_cents)]

/-- JSON encoding of an order, mirroring the sample dicts. -/
def Order.toJson (o : Order) : Json :=
  .obj [("order_id", .str o.order_id), ("status", .str o.status),
        ("total", .num o.total_cents), ("currency", .str o.currency),
        ("items", .arr (o.items.map OrderItem.toJson))]

/-- The record-level core of `get_order_payload`: first sample order whose
`order_id` matches, else `None`. -/
def get_order (order_id : String) : Option Order :=
  SAMPLE_ORDERS.find? (fun o => o.order_id = order_id)

/-- Model of `get_order_payload` from `src/customer_api/data.py` (the returned dict). -/
def get_order_payload (order_id : String) : Option Json :=
  (get_order order_id).map Order.toJson

/-- Model of `list_orders_payload` from `src/customer_api/data.py`. -/
def list_orders_payload (now : String) : Json :=
  .obj [("generated_at", .str now),
        ("orders", .arr (SAMPLE_ORDERS.map Order.toJson))]

/-- One request-log entry (`RequestLog.record` builds these). `metadata` is
already filtered by Python truthiness: `none` when the argument was `None`
or the empty dict. -/
structure LogEntry where
  time : String
  method : String
  path : String
  status : Nat
  metadata : Option Json

/-- The entry dict appended by `RequestLog.record`: the `metadata` key is set
only when the argument is truthy (a non-empty dict). -/
def mkLogEntry (now method path : String) (status : Nat)
    (metadata : Option Json) : LogEntry :=
  { time := now, method := method, path := path, status := status,
    metadata :=
      match metadata with
      | some (.obj []) => none
      | some m => some m
      | none => none }

/-- JSON encoding of a log entry as listed by `/mcp/logs`. -/
def LogEntry.toJson (e : LogEntry) : Json :=
  .obj ([("time", .str e.time), ("method", .str e.method),
         ("path", .str e.path), ("status", .num e.status)] ++
        (match e.metadata with
         | some m => [("metadata", m)]
         | none => []))

/-- Model of `RequestLog` from `src/mcp_platform/server.py`: the guarded entry list.
The lock serialises `record` and `as_dict`; each is modelled as one atomic
state transition. -/
structure RequestLog where
  entries : List LogEntry

/-- Model of `RequestLog.record`: append one entry under the lock. -/
def RequestLog.record (l : RequestLog) (now method path : String)
    (status : Nat) (metadata : Option Json) : RequestLog :=
  { entries := l.entries ++ [mkLogEntry now method path status metadata] }

/-- The entry-list copy taken by `RequestLog.as_dict` (`list(self._entries)`). -/
def RequestLog.snapshot (l : RequestLog) : List LogEntry :=
  l.entries

/-- Model of `RequestLog.as_dict`: `{"entries": <copy>}`. -/
def RequestLog.as_dict (l : RequestLog) : Json :=
  .obj [("entries", .arr (l.snapshot.map LogEntry.toJson))]

/-- Gateway configuration read from the environment at request time:
`MCP_API_KEY` (raw env value, possibly empty) and the resolved
`CUSTOMER_API_BASE`. -/
structure Config where
  envApiKey : Option String
  baseUrl : String

/-- Model of `_expected_api_key`: `key or None` — an unset or empty env var means no
secret is configured. -/
def expected_api_key (cfg : Config) : Option String :=
  match cfg.envApiKey with
  | none => none
  | some k => if k.isEmpty then none else some k

/-- Python truthiness of the optional `order_id` string (`if order_id:`). -/
def strOptTruthy : Option String → Bool
  | some s => !s.isEmpty
  | none => false

/-- The upstream path built by `_fetch_orders`:
`"/api/orders" + (f"/{order_id}" if order_id else "")`. -/
def orderPath (order_id : Option String) : String :=
  "/api/orders" ++
    (match order_id with
     | some oid => if oid.isEmpty then "" else "/" ++ oid
     | none => "")

/-- Outcome of one `urllib.request.urlopen` attempt: a response was received
(`urllib` raises `HTTPError` exactly when `status >= 400`; `decoded` is the
result of `json.loads` on the body, `none` when it raises; `rawText` models
`str(exc)` for the synthesized error body) or the connection failed
(`URLError` with `reason`). -/
inductive WireResult where
  | response (status : Nat) (decoded : Option Json) (rawText : String)
  | connError (reason : String)

/-- The 404 body built by `_fallback_from_sample` for an id the sample data
lacks. -/
def notFoundSampleBody (oid : String) : Json :=
  .obj [("error", .str "not_found"),
        ("message", .str ("Order " ++ oid ++ " was not found in sample data."))]

/-- Model of `_fallback_from_sample` from `src/mcp_platform/server.py`. -/
def fallback_from_sample (now : String) (order_id : Option String) :
    Nat × Json :=
  match order_id with
  | some oid =>
    if oid.isEmpty then (200, list_orders_payload now)
    else
      match get_order_payload oid with
      | none => (404, notFoundSampleBody oid)
      | some order => (200, order)
  | none => (200, list_orders_payload now)

/-- Metadata of the success branch of `_fetch_orders`. -/
def upstreamMeta (url : String) : Json :=
  .obj [("source", .str "customer-api"), ("url", .str url)]

/-- Metadata of the `HTTPError` branch of `_fetch_orders`. -/
def upstreamErrMeta (url : String) (status : Nat) : Json :=
  .obj [("source", .str "customer-api"), ("url", .str url),
        ("status", .num status)]

/-- Metadata of the `URLError` (fallback) branch of `_fetch_orders`. -/
def fallbackMeta (url reason : String) : Json :=
  .obj [("source", .str "sample-data"), ("url", .str url),
        ("customer_api_error", .str reason)]

/-- The body `_fetch_orders` synthesizes when an `HTTPError` body fails to
decode: `{"error": "customer_api_error", "message": str(exc)}`. -/
def synthErrorBody (rawText : String) : Json :=
  .obj [("error", .str "customer_api_error"), ("message", .str rawText)]

/-- Model of `_fetch_orders` from `src/mcp_platform/server.py`: returns
`(status, payload, metadata)`; `none` models an exception escaping the
function (only possible when a success-status body fails to decode, since
that `json.loads` sits outside both `except` clauses). -/
def fetch_orders (wire : WireResult) (base now : String)
    (order_id : Option String) : Option (Nat × Json × Json) :=
  let url := base ++ orderPath order_id
  match wire with
  | .response status decoded rawText =>
    if status < 400 then
      match decoded with
      | some payload => some (status, payload, upstreamMeta url)
      | none => none
    else
      let payload := decoded.getD (synthErrorBody rawText)
      some (status, payload, upstreamErrMeta url status)
  | .connError reason =>
    let sp := fallback_from_sample now order_id
    some (sp.1, sp.2, fallbackMeta url reason)

/-- Model of `_manifest` from `src/mcp_platform/server.py`. -/
def manifest : Json :=
  .obj [("schema_version", .str "2024-05-24"),
        ("name", .str "demo-orders-mcp"),
        ("version", .str "1.0.0"),
        ("description", .str "Expose customer orders via the Model Context Protocol."),
        ("tools", .arr
          [ .obj [("name", .str "orders"),
                  ("description", .str "List all orders or fetch a single order when `order_id` is provided."),
                  ("input_schema", .obj
                    [("type", .str "object"),
                     ("properties", .obj
                       [("order_id", .obj
                         [("type", .str "string"),
                          ("description", .str "Optional order identifier. When set the tool returns only that order.")])])])] ])]

/-- Result of handling one inbound request: the response sent (`none` when an
uncaught exception aborts the handler before any send), the request log after
the handler, and how many upstream fetch attempts were made. -/
structure HandlerResult where
  response : Option (Nat × Json)
  log : RequestLog
  upstreamCalls : Nat

/-- The 401 body `_require_api_key` sends. -/
def unauthorisedBody : Json :=
  .obj [("error", .str "unauthorised"),
        ("message", .str "Missing or invalid X-MCP-Key header.")]

/-- Model of `_require_api_key`: `none` means authorised; otherwise the 401 response
(status, payload, log metadata) that the guard itself sends. -/
def require_api_key (cfg : Config) (provided : Option String) :
    Option (Nat × Json × Option Json) :=
  match expected_api_key cfg with
  | none => none
  | some expected =>
    if provided = some expected then none
    else
      some (401, unauthorisedBody,
            some (.obj [("reason", .str "invalid_api_key")]))

/-- The error response `_handle_orders` builds when `status >= 400`. -/
def errorEnvelope (err msg payload : Json) : Json :=
  .obj [("error", err), ("message", msg), ("data", payload)]

/-- The success response `_handle_orders` builds when `status < 400`. -/
def successEnvelope (metadata payload : Json) : Json :=
  .obj [("tool", .str "orders"), ("metadata", metadata), ("data", payload)]

/-- The envelope built by `_handle_orders` before sending: `(status, body,
log metadata)`; `none` models an exception (from `_fetch_orders`, or from
`payload.get` when an upstream error body is not a dict). -/
def orders_envelope (wire : WireResult) (base now : String)
    (order_id : Option String) : Option (Nat × Json × Json) :=
  match fetch_orders wire base now order_id with
  | none => none
  | some (status, payload, metadata) =>
    if 400 ≤ status then
      match payload.pyGet "error" (.str "customer_api_error"),
            payload.pyGet "message" (.str "Customer API returned an error.") with
      | some err, some msg => some (status, errorEnvelope err msg payload, metadata)
      | _, _ => none
    else
      some (status, successEnvelope metadata payload, metadata)

/-- Model of `_handle_orders`: fetch (one upstream attempt), then `_send_json`, which
records one log entry with the response status and metadata. -/
def handle_orders (cfg : Config) (wire : WireResult) (now method rawPath : String)
    (order_id : Option String) (log : RequestLog) : HandlerResult :=
  match orders_envelope wire cfg.baseUrl now order_id with
  | none => { response := none, log := log, upstreamCalls := 1 }
  | some (status, body, metadata) =>
    { response := some (status, body),
      log := log.record now method rawPath status (some metadata),
      upstreamCalls := 1 }

/-- A GET request as seen by `do_GET`: the raw request line path (logged by
`_send_json`), the `urlparse` path component (routed on), the first
`order_id` query value from `parse_qs` (`None` when absent), and the
`X-MCP-Key` header. -/
structure GetRequest where
  rawPath : String
  path : String
  queryOrderId : Option String
  apiKey : Option String

/-- The health body sent for `/` and `/mcp/health`. -/
def healthyBody : Json :=
  .obj [("status", .str "healthy"), ("service", .str "mcp-platform")]

/-- The not-found body sent for an unmatched path (`{parsed.path!r}` models
`repr` for paths without quote or escape characters). -/
def notFoundBody (path : String) : Json :=
  .obj [("error", .str "not_found"),
        ("message", .str ("Unknown resource '" ++ path ++
          "' on the MCP platform."))]

/-- Model of `do_GET` from `src/mcp_platform/server.py`. Every send goes through
`_send_json`, which appends one log entry with the response status. -/
def do_GET (cfg : Config) (wire : WireResult) (now : String)
    (req : GetRequest) (log : RequestLog) : HandlerResult :=
  let send := fun (status : Nat) (payload : Json) (metadata : Option Json) =>
    HandlerResult.mk (some (status, payload))
      (log.record now "GET" req.rawPath status metadata) 0
  if req.path = "/" ∨ req.path = "/mcp/health" then
    send 200 healthyBody none
  else if req.path = "/.well-known/mcp.json" then
    send 200 manifest none
  else if req.path = "/mcp/logs" then
    send 200 log.as_dict none
  else if req.path = "/mcp/tools/orders" then
    match require_api_key cfg req.apiKey with
    | some (status, payload, metadata) => send status payload metadata
    | none => handle_orders cfg wire now "GET" req.rawPath req.queryOrderId log
  else
    send 404 (notFoundBody req.path) none

/-- The body situation of a POST after `Content-Length` handling:
a non-integer header (`invalid_length`), an empty body (decoded as `{}`),
a body `json.loads` rejects, or the decoded JSON value. -/
inductive PostBodyState where
  | badLength
  | empty
  | notJson
  | decoded (j : Json)

/-- A POST request as seen by `do_POST`. -/
structure PostRequest where
  rawPath : String
  path : String
  apiKey : Option String
  body : PostBodyState

/-- Model of `do_POST` from `src/mcp_platform/server.py`. `body.get("order_id")` on a
non-dict JSON value raises `AttributeError` (response `none`, nothing sent,
no upstream call); a JSON `null` value for `order_id` behaves like an absent
field (`order_id is not None` is false). -/
def do_POST (cfg : Config) (wire : WireResult) (now : String)
    (req : PostRequest) (log : RequestLog) : HandlerResult :=
  let send := fun (status : Nat) (payload : Json) (metadata : Option Json) =>
    HandlerResult.mk (some (status, payload))
      (log.record now "POST" req.rawPath status metadata) 0
  if req.path = "/mcp/tools/orders" then
    match require_api_key cfg req.apiKey with
    | some (status, payload, metadata) => send status payload metadata
    | none =>
      match req.body with
      | .badLength =>
        send 400 (.obj [("error", .str "invalid_length"),
                        ("message", .str "Invalid Content-Length header.")]) none
      | .notJson =>
        send 400 (.obj [("error", .str "invalid_json"),
                        ("message", .str "Request body must be valid JSON.")]) none
      | .empty =>
        handle_orders cfg wire now "POST" req.rawPath none log
      | .decoded bodyJson =>
        match bodyJson.pyGetOpt "order_id" with
        | none => { response := none, log := log, upstreamCalls := 0 }
        | some idVal =>
          match idVal with
          | none => handle_orders cfg wire now "POST" req.rawPath none log
          | some .null => handle_orders cfg wire now "POST" req.rawPath none log
          | some (.str s) => handle_orders cfg wire now "POST" req.rawPath (some s) log
          | some _ =>
            send 400 (.obj [("error", .str "invalid_order_id"),
                            ("message", .str "order_id must be a string when provided.")]) none
  else
    send 404 (notFoundBody req.path) none

/-- Model of `do_OPTIONS`: status 204, headers only, no `_send_json`, so no log entry. -/
def do_OPTIONS (log : RequestLog) : Nat × RequestLog :=
  (204, log)

/-- Status of the response a handler sent, when one was sent. -/
def HandlerResult.stat (r : HandlerResult) : Option Nat :=
  r.response.map (fun p => p.1)

/-- A field of the JSON body a handler sent. -/
def HandlerResult.bodyField (r : HandlerResult) (key : String) : Option Json :=
  match r.response with
  | some (_, body) => body.field key
  | none => none

/-- The `metadata` sub-field of the JSON body a handler sent. -/
def HandlerResult.metaField (r : HandlerResult) (key : String) : Option Json :=
  (r.bodyField "metadata").bind (fun m => m.field key)

/-- The `data.orders` list of the JSON body a handler sent. -/
def HandlerResult.dataOrders (r : HandlerResult) : Option Json :=
  (r.bodyField "data").bind (fun d => d.field "orders")

/-- The arguments of one `RequestLog.record` call. -/
structure RecordArgs where
  now : String
  method : String
  path : String
  status : Nat
  metadata : Option Json

/-- Replay a sequence of `record` calls against a log. -/
def recordMany (l : RequestLog) (rs : List RecordArgs) : RequestLog :=
  rs.foldl (fun acc a => acc.record a.now a.method a.path a.status a.metadata) l

/-- First sample order. -/
def orderA1001 : Order :=
  { order_id := "A1001", status := "processing", total_cents := 51243,
    currency := "CNY",
    items := [ { sku := "SKU-1", quantity := 2, unit_price_cents := 19900 },
               { sku := "SKU-5", quantity := 1, unit_price_cents := 11443 } ] }

/-- Configuration with no API key and the default upstream base. -/
def cfg0 : Config := { envApiKey := none, baseUrl := "http://127.0.0.1:8001" }

/-- An initially empty request log. -/
def emptyLog : RequestLog := { entries := [] }

/-- A GET of the tool route with no query and no key header. -/
def getToolsReq : GetRequest :=
  { rawPath := "/mcp/tools/orders", path := "/mcp/tools/orders",
    queryOrderId := none, apiKey := none }

/-- A GET of `/health` (a path the router does not know). -/
def getHealthSlashReq : GetRequest :=
  { rawPath := "/health", path := "/health", queryOrderId := none,
    apiKey := none }

/-- A GET of `/mcp/health`. -/
def getMcpHealthReq : GetRequest :=
  { rawPath := "/mcp/health", path := "/mcp/health", queryOrderId := none,
    apiKey := none }

/-- A POST of the tool route whose body decodes to `{"order_id": ""}`. -/
def postEmptyIdReq : PostRequest :=
  { rawPath := "/mcp/tools/orders", path := "/mcp/tools/orders",
    apiKey := none, body := .decoded (.obj [("order_id", .str "")]) }

/-- A POST of the tool route whose body decodes to the JSON array `[1]`. -/
def postArrayBodyReq : PostRequest :=
  { rawPath := "/mcp/tools/orders", path := "/mcp/tools/orders",
    apiKey := none, body := .decoded (.arr [.num 1]) }

theorem recordMany_cons (l : RequestLog) (a : RecordArgs) (rs : List RecordArgs) :
    recordMany l (a :: rs) =
      recordMany (l.record a.now a.method a.path a.status a.metadata) rs := rfl

/-- C8: the request log is append-only — each `record` appends exactly one
entry (the prior snapshot is preserved as a prefix, nothing is removed),
replaying N `record` calls grows the snapshot length by exactly N, and a
snapshot is a point-in-time value that later appends extend rather than
mutate. -/
theorem claim8_request_log_append_only :
    (∀ (l : RequestLog) (now method path : String) (status : Nat)
       (metadata : Option Json),
       (l.record now method path status metadata).snapshot =
         l.snapshot ++ [mkLogEntry now method path status metadata])
  ∧ (∀ (l : RequestLog) (rs : List RecordArgs),
       (recordMany l rs).snapshot.length = l.snapshot.length + rs.length) := by
  constructor
  · intro l now method path status metadata
    rfl
  · intro l rs
    induction rs generalizing l with
    | nil => simp [recordMany]
    | cons a rest ih =>
      rw [recordMany_cons, ih]
      simp [RequestLog.record, RequestLog.snapshot]
      omega

/-- C9: every identifier present in the fallback catalog is looked up to
exactly its own order, occurs exactly once in the catalog in its defined
order, and every identifier not in the catalog is looked up to `None`. -/
theorem claim9_fallback_catalog :
    (∀ o ∈ SAMPLE_ORDERS,
       get_order o.order_id = some o ∧ SAMPLE_ORDERS.count o = 1)
  ∧ (∀ oid : String, (∀ o ∈ SAMPLE_ORDERS, o.order_id ≠ oid) →
       get_order oid = none)
  ∧ (∀ now : String, (list_orders_payload now).field "orders" =
       some (.arr (SAMPLE_ORDERS.map Order.toJson))) := by
  refine ⟨by decide, ?_, fun now => rfl⟩
  intro oid h
  unfold get_order
  rw [List.find?_eq_none]
  intro o ho
  simpa using h o ho

/-- Witness for C9 at the concrete ids "A1001" (present) and "B9999"
(absent). -/
theorem claim9_fallback_catalog_witness :
    get_order "A1001" = some orderA1001 ∧ get_order "B9999" = none := by
  constructor
  · exact (claim9_fallback_catalog.1 orderA1001 (by decide)).1
  · exact claim9_fallback_catalog.2.1 "B9999" (by decide)

/-- C5 (code bug): a POST body that decodes to the JSON array `[1]` is not
rejected with a 400 — `body.get("order_id")` raises `AttributeError`, so no
response is sent at all (and no upstream call and no log entry is made). -/
theorem claim5_nonobject_body_not_rejected :
    (do_POST cfg0 (WireResult.connError "refused") "T" postArrayBodyReq
        emptyLog).response = none ∧
    (do_POST cfg0 (WireResult.connError "refused") "T" postArrayBodyReq
        emptyLog).upstreamCalls = 0 ∧
    (do_POST cfg0 (WireResult.connError "refused") "T" postArrayBodyReq
        emptyLog).log = emptyLog :=
  ⟨rfl, rfl, rfl⟩

/-- Counterexample to C6: an upstream response with success status 200 whose
body fails to decode makes `_fetch_orders` raise (the `json.loads` error is
not caught), rather than return an `ApplicationError` outcome. -/
theorem claim6_counterexample :
    fetch_orders (WireResult.response 200 none "not json")
      "http://127.0.0.1:8001" "T" none = none := rfl

/-- C6 (amended): for upstream responses with an HTTP error status whose
body cannot be decoded, the fetch returns an `ApplicationError` outcome with
the synthesized body `{error: "customer_api_error", message: <raw text>}`;
the unreachable branch is likewise total. (A success-status response with an
undecodable body instead propagates the parse exception.) -/
theorem claim6_amended :
    (∀ status : Nat, 400 ≤ status →
       ∀ (raw base now : String) (oid : Option String),
       fetch_orders (WireResult.response status none raw) base now oid =
         some (status, synthErrorBody raw,
               upstreamErrMeta (base ++ orderPath oid) status))
  ∧ (∀ (reason base now : String) (oid : Option String),
       (fetch_orders (WireResult.connError reason) base now oid).isSome = true) := by
  constructor
  · intro status hs raw base now oid
    have hlt : ¬ status < 400 := by omega
    simp [fetch_orders, hlt]
  · intro reason base now oid
    simp [fetch_orders]

/-- Witness for C6 (amended) at status 502. -/
theorem claim6_witness :
    fetch_orders (WireResult.response 502 none "HTTP Error 502: Bad Gateway")
      "http://127.0.0.1:8001" "T" none =
      some (502, synthErrorBody "HTTP Error 502: Bad Gateway",
            upstreamErrMeta ("http://127.0.0.1:8001" ++ orderPath none) 502) :=
  claim6_amended.1 502 (by decide) "HTTP Error 502: Bad Gateway"
    "http://127.0.0.1:8001" "T" none

/-- Counterexample to C1: with the upstream unreachable and no `order_id`,
the tool response does disclose the fallback, but `metadata.source` is the
string "sample-data", not "fallback" as the claim states (status is 200). -/
theorem claim1_counterexample :
    (do_GET cfg0 (WireResult.connError "connection refused") "T" getToolsReq
        emptyLog).metaField "source" = some (Json.str "sample-data") ∧
    (do_GET cfg0 (WireResult.connError "connection refused") "T" getToolsReq
        emptyLog).metaField "source" ≠ some (Json.str "fallback") ∧
    (do_GET cfg0 (WireResult.connError "connection refused") "T" getToolsReq
        emptyLog).stat = some 200 := by
  refine ⟨rfl, fun h => ?_, rfl⟩
  rw [show (do_GET cfg0 (WireResult.connError "connection refused") "T"
      getToolsReq emptyLog).metaField "source" = some (Json.str "sample-data")
    from rfl] at h
  simp at h

/-- C1 (amended): for every authorised request of the tool route that
carries no `order_id`, when the upstream connection fails the response has
status 200, `metadata.source` equal to "sample-data", a
`metadata.customer_api_error` field disclosing the unreachability reason,
and a non-empty `data.orders` list taken from the fallback catalog. -/
theorem claim1_amended (cfg : Config) (reason now rawPath : String)
    (key : Option String) (log : RequestLog)
    (hauth : require_api_key cfg key = none) :
    (do_GET cfg (WireResult.connError reason) now
        ⟨rawPath, "/mcp/tools/orders", none, key⟩ log).stat = some 200 ∧
    (do_GET cfg (WireResult.connError reason) now
        ⟨rawPath, "/mcp/tools/orders", none, key⟩ log).metaField "source" =
      some (Json.str "sample-data") ∧
    (do_GET cfg (WireResult.connError reason) now
        ⟨rawPath, "/mcp/tools/orders", none, key⟩ log).metaField
        "customer_api_error" = some (Json.str reason) ∧
    (do_GET cfg (WireResult.connError reason) now
        ⟨rawPath, "/mcp/tools/orders", none, key⟩ log).dataOrders =
      some (Json.arr (SAMPLE_ORDERS.map Order.toJson)) ∧
    SAMPLE_ORDERS.map Order.toJson ≠ [] := by
  refine ⟨?_, ?_, ?_, ?_, by simp [SAMPLE_ORDERS]⟩ <;>
    simp [do_GET, hauth, handle_orders, orders_envelope, fetch_orders,
      fallback_from_sample, list_orders_payload, successEnvelope, fallbackMeta,
      HandlerResult.stat, HandlerResult.metaField, HandlerResult.bodyField,
      HandlerResult.dataOrders, Json.field, lookupField]

/-- Witness for C1 (amended) with no configured secret. -/
theorem claim1_witness :
    (do_GET cfg0 (WireResult.connError "refused") "T"
        ⟨"/mcp/tools/orders", "/mcp/tools/orders", none, none⟩ emptyLog).stat =
      some 200 ∧
    (do_GET cfg0 (WireResult.connError "refused") "T"
        ⟨"/mcp/tools/orders", "/mcp/tools/orders", none, none⟩
        emptyLog).metaField "source" = some (Json.str "sample-data") ∧
    (do_GET cfg0 (WireResult.connError "refused") "T"
        ⟨"/mcp/tools/orders", "/mcp/tools/orders", none, none⟩
        emptyLog).metaField "customer_api_error" = some (Json.str "refused") ∧
    (do_GET cfg0 (WireResult.connError "refused") "T"
        ⟨"/mcp/tools/orders", "/mcp/tools/orders", none, none⟩
        emptyLog).dataOrders = some (Json.arr (SAMPLE_ORDERS.map Order.toJson)) ∧
    SAMPLE_ORDERS.map Order.toJson ≠ [] :=
  claim1_amended cfg0 "refused" "T" "/mcp/tools/orders" none emptyLog rfl

/-- C2: when a secret is configured and the supplied `X-MCP-Key` is missing
or different, both the GET and the POST tool route answer 401 with error
"unauthorised" and perform no upstream fetch; when no secret is configured
the guard authorises every request. -/
theorem claim2_auth_guard :
    (∀ (cfg : Config) (wire : WireResult) (now : String) (req : GetRequest)
       (log : RequestLog) (expected : String),
       expected_api_key cfg = some expected →
       req.apiKey ≠ some expected →
       req.path = "/mcp/tools/orders" →
       (do_GET cfg wire now req log).response = some (401, unauthorisedBody) ∧
       (do_GET cfg wire now req log).upstreamCalls = 0)
  ∧ (∀ (cfg : Config) (wire : WireResult) (now : String) (req : PostRequest)
       (log : RequestLog) (expected : String),
       expected_api_key cfg = some expected →
       req.apiKey ≠ some expected →
       req.path = "/mcp/tools/orders" →
       (do_POST cfg wire now req log).response = some (401, unauthorisedBody) ∧
       (do_POST cfg wire now req log).upstreamCalls = 0)
  ∧ (∀ (cfg : Config) (provided : Option String),
       expected_api_key cfg = none → require_api_key cfg provided = none) := by
  refine ⟨?_, ?_, ?_⟩
  · intro cfg wire now req log expected hexp hkey hpath
    obtain ⟨rawPath, path, q, key⟩ := req
    simp only at hpath hkey
    subst hpath
    constructor <;>
      simp [do_GET, require_api_key, hexp, hkey]
  · intro cfg wire now req log expected hexp hkey hpath
    obtain ⟨rawPath, path, key, body⟩ := req
    simp only at hpath hkey
    subst hpath
    constructor <;>
      simp [do_POST, require_api_key, hexp, hkey]
  · intro cfg provided hnone
    simp [require_api_key, hnone]

/-- Configuration with the secret "secret-key". -/
def cfg1 : Config :=
  { envApiKey := some "secret-key", baseUrl := "http://127.0.0.1:8001" }

/-- Witness for C2 at a GET with no key while "secret-key" is configured. -/
theorem claim2_witness :
    (do_GET cfg1 (WireResult.connError "x") "T" getToolsReq emptyLog).response =
      some (401, unauthorisedBody) ∧
    (do_GET cfg1 (WireResult.connError "x") "T" getToolsReq
        emptyLog).upstreamCalls = 0 :=
  claim2_auth_guard.1 cfg1 (WireResult.connError "x") "T" getToolsReq emptyLog
    "secret-key" rfl (by decide) rfl

/-- Counterexample to C3: an upstream 404 whose decoded error body is the
JSON array `[]` makes the gateway raise (`payload.get` on a non-dict), so no
response is sent at all — the upstream status is not propagated. -/
theorem claim3_counterexample :
    (do_GET cfg0 (WireResult.response 404 (some (Json.arr [])) "err") "T"
        getToolsReq emptyLog).response = none := rfl

/-- C3 (amended): for every upstream response with an HTTP error status
whose body decodes to a JSON object (or does not decode at all), the
authorised tool route propagates the status unchanged and answers
`{error, message, data: payload}`, with `error`/`message` copied from the
payload when present and defaulting to "customer_api_error" and the generic
message otherwise; the outcome is never shaped as a success envelope. -/
theorem claim3_amended :
    (∀ (cfg : Config) (now : String) (req : GetRequest) (log : RequestLog)
       (status : Nat) (fields : List (String × Json)) (raw : String),
       require_api_key cfg req.apiKey = none →
       req.path = "/mcp/tools/orders" →
       400 ≤ status →
       (do_GET cfg (WireResult.response status (some (.obj fields)) raw) now
           req log).response =
         some (status,
           errorEnvelope
             ((lookupField fields "error").getD (.str "customer_api_error"))
             ((lookupField fields "message").getD
               (.str "Customer API returned an error."))
             (.obj fields)))
  ∧ (∀ (cfg : Config) (now : String) (req : GetRequest) (log : RequestLog)
       (status : Nat) (raw : String),
       require_api_key cfg req.apiKey = none →
       req.path = "/mcp/tools/orders" →
       400 ≤ status →
       (do_GET cfg (WireResult.response status none raw) now req log).response =
         some (status,
           errorEnvelope (.str "customer_api_error") (.str raw)
             (synthErrorBody raw))) := by
  constructor
  · intro cfg now req log status fields raw hauth hpath hs
    obtain ⟨rawPath, path, q, key⟩ := req
    simp only at hpath hauth
    subst hpath
    have hlt : ¬ status < 400 := by omega
    simp [do_GET, hauth, handle_orders, orders_envelope, fetch_orders, hlt,
      hs, Json.pyGet, errorEnvelope]
  · intro cfg now req log status raw hauth hpath hs
    obtain ⟨rawPath, path, q, key⟩ := req
    simp only at hpath hauth
    subst hpath
    have hlt : ¬ status < 400 := by omega
    simp [do_GET, hauth, handle_orders, orders_envelope, fetch_orders, hlt,
      hs, Json.pyGet, synthErrorBody, lookupField, errorEnvelope]

/-- Witness for C3 (amended) at an upstream 500 with body
`{"error": "boom"}`. -/
theorem claim3_witness :
    (do_GET cfg0
        (WireResult.response 500 (some (.obj [("error", .str "boom")])) "e")
        "T" getToolsReq emptyLog).response =
      some (500,
        errorEnvelope
          ((lookupField [("error", Json.str "boom")] "error").getD
            (.str "customer_api_error"))
          ((lookupField [("error", Json.str "boom")] "message").getD
            (.str "Customer API returned an error."))
          (.obj [("error", .str "boom")])) :=
  claim3_amended.1 cfg0 "T" getToolsReq emptyLog 500
    [("error", Json.str "boom")] "e" rfl rfl (by decide)

/-- Counterexample to C4: the POST body `{"order_id": ""}` carries an
`order_id` that is absent from the fallback catalog, yet with the upstream
unreachable the response is 200 (the empty string is falsy, so the gateway
serves the full fallback listing instead of a 404). -/
theorem claim4_counterexample :
    get_order "" = none ∧
    (do_POST cfg0 (WireResult.connError "refused") "T" postEmptyIdReq
        emptyLog).stat = some 200 :=
  ⟨rfl, rfl⟩

/-- C4 (amended): for every authorised request carrying a non-empty
`order_id` absent from the fallback catalog, when the upstream is
unreachable the response is 404 with error "not_found"; and whenever the
upstream is unreachable the authorised tool route always sends some
response — the caller never observes the raw transport error. -/
theorem claim4_amended :
    (∀ (cfg : Config) (reason now rawPath : String) (key : Option String)
       (log : RequestLog) (oid : String),
       require_api_key cfg key = none →
       oid.isEmpty = false →
       get_order oid = none →
       (do_GET cfg (WireResult.connError reason) now
           ⟨rawPath, "/mcp/tools/orders", some oid, key⟩ log).response =
         some (404,
           errorEnvelope (.str "not_found")
             (.str ("Order " ++ oid ++ " was not found in sample data."))
             (notFoundSampleBody oid)))
  ∧ (∀ (cfg : Config) (reason now rawPath : String) (key qid : Option String)
       (log : RequestLog),
       require_api_key cfg key = none →
       ((do_GET cfg (WireResult.connError reason) now
           ⟨rawPath, "/mcp/tools/orders", qid, key⟩ log).response).isSome =
         true) := by
  constructor
  · intro cfg reason now rawPath key log oid hauth hne hmiss
    simp [do_GET, hauth, handle_orders, orders_envelope, fetch_orders,
      fallback_from_sample, get_order_payload, hne, hmiss, Json.pyGet,
      notFoundSampleBody, lookupField, errorEnvelope]
  · intro cfg reason now rawPath key qid log hauth
    rcases qid with _ | oid
    · simp [do_GET, hauth, handle_orders, orders_envelope, fetch_orders,
        fallback_from_sample, list_orders_payload]
    · by_cases hoid : oid.isEmpty
      · simp [do_GET, hauth, handle_orders, orders_envelope, fetch_orders,
          fallback_from_sample, hoid, list_orders_payload]
      · cases hg : get_order oid with
        | none =>
          simp [do_GET, hauth, handle_orders, orders_envelope, fetch_orders,
            fallback_from_sample, hoid, hg, get_order_payload, Json.pyGet,
            notFoundSampleBody, lookupField]
        | some o =>
          simp [do_GET, hauth, handle_orders, orders_envelope, fetch_orders,
            fallback_from_sample, hoid, hg, get_order_payload, Order.toJson]

/-- Witness for C4 (amended) at the absent id "B404". -/
theorem claim4_witness :
    (do_GET cfg0 (WireResult.connError "refused") "T"
        ⟨"/mcp/tools/orders", "/mcp/tools/orders", some "B404", none⟩
        emptyLog).response =
      some (404,
        errorEnvelope (.str "not_found")
          (.str ("Order " ++ "B404" ++ " was not found in sample data."))
          (notFoundSampleBody "B404")) :=
  claim4_amended.1 cfg0 "refused" "T" "/mcp/tools/orders" none emptyLog "B404"
    rfl rfl rfl

/-- Counterexample to C7: the path "/health" is not in the route table — it
returns the 404 not-found body, not the health payload the claim states. -/
theorem claim7_counterexample :
    (do_GET cfg0 (WireResult.connError "x") "T" getHealthSlashReq
        emptyLog).response = some (404, notFoundBody "/health") := rfl

/-- C7 (amended): "/" and "/mcp/health" answer the health payload without
auth, "/mcp/logs" answers `{entries: ...}` (a snapshot of the log) without
auth, and every path outside the static route table answers 404 with error
"not_found" and a message naming the offending path. -/
theorem claim7_amended :
    (∀ (cfg : Config) (wire : WireResult) (now : String) (req : GetRequest)
       (log : RequestLog),
       (req.path = "/" ∨ req.path = "/mcp/health") →
       (do_GET cfg wire now req log).response = some (200, healthyBody))
  ∧ (∀ (cfg : Config) (wire : WireResult) (now : String) (req : GetRequest)
       (log : RequestLog),
       req.path = "/mcp/logs" →
       (do_GET cfg wire now req log).response = some (200, log.as_dict))
  ∧ (∀ (cfg : Config) (wire : WireResult) (now : String) (req : GetRequest)
       (log : RequestLog),
       req.path ≠ "/" → req.path ≠ "/mcp/health" →
       req.path ≠ "/.well-known/mcp.json" → req.path ≠ "/mcp/logs" →
       req.path ≠ "/mcp/tools/orders" →
       (do_GET cfg wire now req log).response =
         some (404, notFoundBody req.path)) := by
  refine ⟨?_, ?_, ?_⟩
  · intro cfg wire now req log hpath
    simp [do_GET, hpath]
  · intro cfg wire now req log hpath
    obtain ⟨rawPath, path, q, key⟩ := req
    simp only at hpath
    subst hpath
    simp [do_GET]
  · intro cfg wire now req log h1 h2 h3 h4 h5
    simp [do_GET, h1, h2, h3, h4, h5]

/-- Witness for C7 (amended) at "/mcp/health". -/
theorem claim7_witness :
    (do_GET cfg0 (WireResult.connError "x") "T" getMcpHealthReq
        emptyLog).response = some (200, healthyBody) :=
  claim7_amended.1 cfg0 (WireResult.connError "x") "T" getMcpHealthReq
    emptyLog (Or.inr rfl)

theorem handle_orders_appends (cfg : Config) (wire : WireResult)
    (now method rawPath : String) (oid : Option String) (log : RequestLog)
    (s : Nat) (p : Json)
    (h : (handle_orders cfg wire now method rawPath oid log).response =
      some (s, p)) :
    ∃ e, (handle_orders cfg wire now method rawPath oid log).log.entries =
      log.entries ++ [e] ∧ e.status = s := by
  cases henv : orders_envelope wire cfg.baseUrl now oid with
  | none =>
    unfold handle_orders at h
    rw [henv] at h
    simp at h
  | some v =>
    obtain ⟨st, body, md⟩ := v
    have hres : handle_orders cfg wire now method rawPath oid log =
        { response := some (st, body),
          log := log.record now method rawPath st (some md),
          upstreamCalls := 1 } := by
      unfold handle_orders
      rw [henv]
    rw [hres] at h ⊢
    simp only [Option.some.injEq, Prod.mk.injEq] at h
    obtain ⟨hs, hp⟩ := h
    exact ⟨mkLogEntry now method rawPath st (some md), rfl, hs⟩

/-- C10: whenever `do_GET` or `do_POST` sends a response (every send goes
through `_send_json`), exactly one log entry is appended and it carries the
response's status code; an OPTIONS preflight leaves the log untouched. -/
theorem claim10_send_json_logging :
    (∀ (cfg : Config) (wire : WireResult) (now : String) (req : GetRequest)
       (log : RequestLog) (s : Nat) (p : Json),
       (do_GET cfg wire now req log).response = some (s, p) →
       ∃ e, (do_GET cfg wire now req log).log.entries = log.entries ++ [e] ∧
         e.status = s)
  ∧ (∀ (cfg : Config) (wire : WireResult) (now : String) (req : PostRequest)
       (log : RequestLog) (s : Nat) (p : Json),
       (do_POST cfg wire now req log).response = some (s, p) →
       ∃ e, (do_POST cfg wire now req log).log.entries = log.entries ++ [e] ∧
         e.status = s)
  ∧ (∀ log : RequestLog, do_OPTIONS log = (204, log)) := by
  refine ⟨?_, ?_, fun log => rfl⟩
  · intro cfg wire now req log s p h
    simp only [do_GET] at h ⊢
    by_cases h1 : req.path = "/" ∨ req.path = "/mcp/health"
    · rw [if_pos h1] at h ⊢
      replace h : some ((200 : Nat), healthyBody) = some (s, p) := h
      simp only [Option.some.injEq, Prod.mk.injEq] at h
      exact ⟨mkLogEntry now "GET" req.rawPath 200 none, rfl, h.1⟩
    · rw [if_neg h1] at h ⊢
      by_cases h2 : req.path = "/.well-known/mcp.json"
      · rw [if_pos h2] at h ⊢
        replace h : some ((200 : Nat), manifest) = some (s, p) := h
        simp only [Option.some.injEq, Prod.mk.injEq] at h
        exact ⟨mkLogEntry now "GET" req.rawPath 200 none, rfl, h.1⟩
      · rw [if_neg h2] at h ⊢
        by_cases h3 : req.path = "/mcp/logs"
        · rw [if_pos h3] at h ⊢
          replace h : some ((200 : Nat), log.as_dict) = some (s, p) := h
          simp only [Option.some.injEq, Prod.mk.injEq] at h
          exact ⟨mkLogEntry now "GET" req.rawPath 200 none, rfl, h.1⟩
        · rw [if_neg h3] at h ⊢
          by_cases h4 : req.path = "/mcp/tools/orders"
          · rw [if_pos h4] at h ⊢
            cases hra : require_api_key cfg req.apiKey with
            | some v =>
              obtain ⟨st, payload, md⟩ := v
              rw [hra] at h
              replace h : some (st, payload) = some (s, p) := h
              simp only [Option.some.injEq, Prod.mk.injEq] at h
              exact ⟨mkLogEntry now "GET" req.rawPath st md, rfl, h.1⟩
            | none =>
              rw [hra] at h
              exact handle_orders_appends cfg wire now "GET" req.rawPath
                req.queryOrderId log s p h
          · rw [if_neg h4] at h ⊢
            replace h : some ((404 : Nat), notFoundBody req.path) = some (s, p) := h
            simp only [Option.some.injEq, Prod.mk.injEq] at h
            exact ⟨mkLogEntry now "GET" req.rawPath 404 none, rfl, h.1⟩
  · intro cfg wire now req log s p h
    simp only [do_POST] at h ⊢
    by_cases h1 : req.path = "/mcp/tools/orders"
    · rw [if_pos h1] at h ⊢
      cases hra : require_api_key cfg req.apiKey with
      | some v =>
        obtain ⟨st, payload, md⟩ := v
        rw [hra] at h
        replace h : some (st, payload) = some (s, p) := h
        simp only [Option.some.injEq, Prod.mk.injEq] at h
        exact ⟨mkLogEntry now "POST" req.rawPath st md, rfl, h.1⟩
      | none =>
        rw [hra] at h
        cases hb : req.body with
        | badLength =>
          rw [hb] at h
          replace h : some ((400 : Nat),
              Json.obj [("error", .str "invalid_length"),
                        ("message", .str "Invalid Content-Length header.")]) =
              some (s, p) := h
          simp only [Option.some.injEq, Prod.mk.injEq] at h
          exact ⟨mkLogEntry now "POST" req.rawPath 400 none, rfl, h.1⟩
        | notJson =>
          rw [hb] at h
          replace h : some ((400 : Nat),
              Json.obj [("error", .str "invalid_json"),
                        ("message", .str "Request body must be valid JSON.")]) =
              some (s, p) := h
          simp only [Option.some.injEq, Prod.mk.injEq] at h
          exact ⟨mkLogEntry now "POST" req.rawPath 400 none, rfl, h.1⟩
        | empty =>
          rw [hb] at h
          exact handle_orders_appends cfg wire now "POST" req.rawPath none
            log s p h
        | decoded bodyJson =>
          rw [hb] at h
          simp only [] at h ⊢
          cases hpg : bodyJson.pyGetOpt "order_id" with
          | none =>
            rw [hpg] at h
            replace h : (none : Option (Nat × Json)) = some (s, p) := h
            simp at h
          | some idVal =>
            rw [hpg] at h
            cases idVal with
            | none =>
              exact handle_orders_appends cfg wire now "POST" req.rawPath
                none log s p h
            | some jv =>
              cases jv with
              | null =>
                exact handle_orders_appends cfg wire now "POST" req.rawPath
                  none log s p h
              | str sv =>
                exact handle_orders_appends cfg wire now "POST" req.rawPath
                  (some sv) log s p h
              | bool b =>
                replace h : some ((400 : Nat),
                    Json.obj [("error", .str "invalid_order_id"),
                      ("message", .str "order_id must be a string when provided.")]) =
                    some (s, p) := h
                simp only [Option.some.injEq, Prod.mk.injEq] at h
                exact ⟨mkLogEntry now "POST" req.rawPath 400 none, rfl, h.1⟩
              | num n =>
                replace h : some ((400 : Nat),
                    Json.obj [("error", .str "invalid_order_id"),
                      ("message", .str "order_id must be a string when provided.")]) =
                    some (s, p) := h
                simp only [Option.some.injEq, Prod.mk.injEq] at h
                exact ⟨mkLogEntry now "POST" req.rawPath 400 none, rfl, h.1⟩
              | arr xs =>
                replace h : some ((400 : Nat),
                    Json.obj [("error", .str "invalid_order_id"),
                      ("message", .str "order_id must be a string when provided.")]) =
                    some (s, p) := h
                simp only [Option.some.injEq, Prod.mk.injEq] at h
                exact ⟨mkLogEntry now "POST" req.rawPath 400 none, rfl, h.1⟩
              | obj fs =>
                replace h : some ((400 : Nat),
                    Json.obj [("error", .str "invalid_order_id"),
                      ("message", .str "order_id must be a string when provided.")]) =
                    some (s, p) := h
                simp only [Option.some.injEq, Prod.mk.injEq] at h
                exact ⟨mkLogEntry now "POST" req.rawPath 400 none, rfl, h.1⟩
    · rw [if_neg h1] at h ⊢
      replace h : some ((404 : Nat), notFoundBody req.path) = some (s, p) := h
      simp only [Option.some.injEq, Prod.mk.injEq] at h
      exact ⟨mkLogEntry now "POST" req.rawPath 404 none, rfl, h.1⟩

/-- Witness for C10 at a concrete health GET. -/
theorem claim10_witness :
    (do_GET cfg0 (WireResult.connError "x") "T" getMcpHealthReq
        emptyLog).log.entries.length = emptyLog.entries.length + 1 := by
  obtain ⟨e, he, hs⟩ := claim10_send_json_logging.1 cfg0
    (WireResult.connError "x") "T" getMcpHealthReq emptyLog 200 healthyBody rfl
  rw [he]
  simp
